import Mathlib

/-!
Shallow embedding of the nest.js-mailer contact-form service.

Source files embedded:
  * `src/recaptcha/recaptcha.service.ts` — `RecaptchaService.verify`
  * `src/mailer/mailer.dto.ts` — the rich `MailerDto` (class-validator decorators)
  * `src/mailer/mailer.controller.ts` (production variant) — `MailerController.sendMail`,
    `sanitizeInput`, `prepareEmailContent`, `sendEmails`

External effects are passed in explicitly: the HTTP call to the scoring
service is an `Except String RecaptchaResponse` argument (error = network
failure / rejected promise), the two mail-client sends are two `Bool`
outcomes, and environment configuration is a record of `Option String`.
Floating-point scores carry no rounding-sensitive arithmetic here, so they
are modelled as rationals.
-/

namespace Mailer

/-- Field `tokenProperties` of `RecaptchaEnterpriseResponse` in recaptcha.service.ts. -/
structure TokenProperties where
  valid : Bool
  invalidReason : Option String
  hostname : String
  action : String
  createTime : String
deriving DecidableEq, Repr

/-- Field `riskAnalysis` of `RecaptchaEnterpriseResponse` in recaptcha.service.ts. -/
structure RiskAnalysis where
  score : ℚ
  reasons : List String
deriving DecidableEq, Repr

/-- The scoring-service response body.  The code reads it with optional
chaining (`data.tokenProperties?.valid`, `data.riskAnalysis?.score`), so a
malformed response may lack either part: both are `Option`s. -/
structure RecaptchaResponse where
  tokenProperties : Option TokenProperties
  riskAnalysis : Option RiskAnalysis
  name : String
deriving DecidableEq, Repr

/-- Diagnostic records emitted by `verify` (the `console.warn` / `console.log`
/ `console.error` calls), with the data each call actually logs. -/
inductive VerifyLog where
  /-- Record of `console.warn('reCAPTCHA Enterprise token invalid:', ...)` —
  logs the invalid reason and `token.substring(0, 20) + '...'`. -/
  | warnInvalid (reason : Option String) (partialToken : String)
  /-- Record of `console.warn('reCAPTCHA Enterprise action mismatch:', ...)`. -/
  | warnActionMismatch (expected actual : String)
  /-- Record of `console.warn('reCAPTCHA Enterprise score too low:', ...)`. -/
  | warnScoreTooLow (score minScore : ℚ) (reasons : Option (List String))
  /-- Record of `console.log('reCAPTCHA Enterprise verification successful:', ...)`. -/
  | logSuccess (score : ℚ) (action hostname : String)
  /-- the `catch` block's `console.error` calls (no token content). -/
  | errorCaught
deriving DecidableEq, Repr

/-- Exceptions that can arise inside `verify`'s `try` block. -/
inductive VerifyError where
  /-- Exception `new HttpException('reCAPTCHA token is required', HttpStatus.BAD_REQUEST)`. -/
  | tokenRequired
  /-- a rejected HTTP promise from the scoring-service call. -/
  | network (e : String)
deriving DecidableEq, Repr

/-- Value `token.substring(0, 20) + '...'` — the partial token logged for
debugging (the first 20 characters of the token, then an ellipsis). -/
def partialTokenLog (token : String) : String :=
  String.mk (token.toList.take 20) ++ "..."

/-- Value `expectedAction || 'submit'` — the expected action placed in the request
body; TS treats an absent argument and the empty string alike (falsy). -/
def effectiveExpectedAction : Option String → String
  | none => "submit"
  | some a => if a = "" then "submit" else a

/-- Test `expectedAction && data.tokenProperties.action !== expectedAction` —
whether the action-mismatch branch fires. -/
def actionMismatch (expectedAction : Option String) (actual : String) : Bool :=
  match expectedAction with
  | none => false
  | some a => if a = "" then false else actual != a

/-- Value `data.riskAnalysis?.score ?? 0`. -/
def scoreOf (data : RecaptchaResponse) : ℚ :=
  (data.riskAnalysis.map RiskAnalysis.score).getD 0

/-- The request body built for the scoring-service call (`requestBody.event`). -/
structure AssessRequest where
  token : String
  siteKey : Option String
  expectedAction : String
deriving DecidableEq, Repr

/-- The network call `verify` performs: `none` when the token is empty (the
token-required exception fires before the HTTP call), otherwise the request
body that is posted. -/
def verifyRequest (siteKey : Option String) (token : String)
    (expectedAction : Option String) : Option AssessRequest :=
  if token = "" then none
  else some ⟨token, siteKey, effectiveExpectedAction expectedAction⟩

/-- The score/success tail of the `try` block: the risk-score check and the
success log. -/
def checkScore (data : RecaptchaResponse) (tp : TokenProperties) (minScore : ℚ) :
    Bool × List VerifyLog :=
  let score := scoreOf data
  if score < minScore then
    (false, [VerifyLog.warnScoreTooLow score minScore
      (data.riskAnalysis.map RiskAnalysis.reasons)])
  else
    (true, [VerifyLog.logSuccess score tp.action tp.hostname])

/-- The body of `verify`'s `try` block.  `Except.error` is a thrown
exception (the token-required `HttpException`, or a rejected network
promise); `Except.ok` carries the returned boolean and the diagnostics
emitted on that path. -/
def verifyTry (token : String) (expectedAction : Option String) (minScore : ℚ)
    (net : Except String RecaptchaResponse) : Except VerifyError (Bool × List VerifyLog) :=
  if token = "" then
    Except.error VerifyError.tokenRequired
  else
    match net with
    | Except.error e => Except.error (VerifyError.network e)
    | Except.ok data =>
      match data.tokenProperties with
      | none =>
        Except.ok (false, [VerifyLog.warnInvalid none (partialTokenLog token)])
      | some tp =>
        if tp.valid = false then
          Except.ok (false, [VerifyLog.warnInvalid tp.invalidReason (partialTokenLog token)])
        else
          match expectedAction with
          | some a =>
            if a != "" && tp.action != a then
              Except.ok (false, [VerifyLog.warnActionMismatch a tp.action])
            else
              Except.ok (checkScore data tp minScore)
          | none =>
            Except.ok (checkScore data tp minScore)

deriving instance DecidableEq for Except

/-- Result of one `verify` call: the value the caller receives (the promise
either resolves to a boolean or rejects), the diagnostics emitted, and the
network request made (if any). -/
structure VerifyOutcome where
  result : Except VerifyError Bool
  logs : List VerifyLog
  request : Option AssessRequest
deriving DecidableEq, Repr

/-- Method `RecaptchaService.verify(token, expectedAction?, minScore = 0.5)`.
The surrounding `try`/`catch` turns every thrown exception — including the
token-required one — into `console.error` diagnostics and a returned
`false`, so `result` is always `Except.ok`. -/
def verify (siteKey : Option String) (token : String) (expectedAction : Option String)
    (minScore : ℚ) (net : Except String RecaptchaResponse) : VerifyOutcome :=
  match verifyTry token expectedAction minScore net with
  | Except.ok (b, logs) =>
    { result := Except.ok b, logs := logs
      request := verifyRequest siteKey token expectedAction }
  | Except.error _ =>
    { result := Except.ok false, logs := [VerifyLog.errorCaught]
      request := verifyRequest siteKey token expectedAction }

/-- The token-derived field of a diagnostic record: only the invalid-token
warning logs (part of) the token. -/
def tokenFieldOf : VerifyLog → Option String
  | VerifyLog.warnInvalid _ partialToken => some partialToken
  | _ => none

/-! ## The rich `MailerDto` (mailer.dto.ts) and its class-validator checks -/

/-- JS `String.prototype.trim()`: strip leading and trailing whitespace
(modelled character-wise). -/
def jsTrim (s : String) : String :=
  String.mk (((s.data.dropWhile Char.isWhitespace).reverse.dropWhile
    Char.isWhitespace).reverse)

/-- JS `String.prototype.toLowerCase()` (modelled character-wise). -/
def jsToLower (s : String) : String :=
  String.mk (s.data.map Char.toLower)

/-- The raw JSON body of a `POST /mail/send` request; `none` = field absent.
`message` appears here because the controller reads `data.message`, even
though the rich `MailerDto` class declares no such property. -/
structure RawBody where
  firstName : Option String
  lastName : Option String
  email : Option String
  phone : Option String
  petType : Option String
  dates : Option String
  message : Option String
  recaptchaToken : Option String
deriving DecidableEq, Repr

/-- Transform `@Transform(... value?.trim())`. -/
def trimT : Option String → Option String :=
  Option.map jsTrim

/-- Transform `@Transform(... value?.trim().toLowerCase())` (email field). -/
def emailT : Option String → Option String :=
  Option.map (fun s => jsToLower (jsTrim s))

/-- class-validator `IsNotEmpty`: fails on absent or empty values. -/
def isNotEmptyOpt : Option String → Bool
  | none => false
  | some s => s != ""

/-- class-validator `IsString`: in this string-typed model, fails exactly on
absent values. -/
def isStringOpt : Option String → Bool :=
  Option.isSome

/-- class-validator `MaxLength(n)`: fails on absent values too. -/
def maxLenOk (n : Nat) : Option String → Bool
  | none => false
  | some s => decide (s.length ≤ n)

/-- One character class of the phone pattern `/^[\d\s\-\+\(\)]+$/`. -/
def phoneChar (c : Char) : Bool :=
  c.isDigit || c = ' ' || c = '\t' || c = '\n' || c = '\r' ||
    c = '-' || c = '+' || c = '(' || c = ')'

/-- class-validator `Matches(/^[\d\s\-\+\(\)]+$/)`. -/
def phoneMatchOk : Option String → Bool
  | none => false
  | some s => s != "" && s.toList.all phoneChar

/-- failed-constraint messages for `firstName` (post-transform value). -/
def firstNameErrors (v : Option String) : List String :=
  (if isNotEmptyOpt v then [] else ["First name is required"]) ++
  (if isStringOpt v then [] else ["First name must be a string"]) ++
  (if maxLenOk 50 v then [] else ["First name cannot exceed 50 characters"])

/-- failed-constraint messages for `lastName`. -/
def lastNameErrors (v : Option String) : List String :=
  (if isNotEmptyOpt v then [] else ["Last name is required"]) ++
  (if isStringOpt v then [] else ["Last name must be a string"]) ++
  (if maxLenOk 50 v then [] else ["Last name cannot exceed 50 characters"])

/-- failed-constraint messages for `email`; `isEmail` is the external
class-validator `IsEmail` predicate (validation infrastructure is an
external collaborator), applied to the transformed value. -/
def emailErrors (isEmail : String → Bool) (v : Option String) : List String :=
  (if isNotEmptyOpt v then [] else ["Email is required"]) ++
  (if (v.map isEmail).getD false then [] else ["Please provide a valid email address"]) ++
  (if maxLenOk 100 v then [] else ["Email cannot exceed 100 characters"])

/-- failed-constraint messages for `phone`. -/
def phoneErrors (v : Option String) : List String :=
  (if isNotEmptyOpt v then [] else ["Phone number is required"]) ++
  (if isStringOpt v then [] else ["Phone number must be a string"]) ++
  (if maxLenOk 20 v then [] else ["Phone number cannot exceed 20 characters"]) ++
  (if phoneMatchOk v then [] else ["Please provide a valid phone number"])

/-- failed-constraint messages for `petType`. -/
def petTypeErrors (v : Option String) : List String :=
  (if isNotEmptyOpt v then [] else ["Pet type is required"]) ++
  (if isStringOpt v then [] else ["Pet type must be a string"]) ++
  (if maxLenOk 200 v then [] else ["Pet type description cannot exceed 200 characters"])

/-- failed-constraint messages for `dates`. -/
def datesErrors (v : Option String) : List String :=
  (if isNotEmptyOpt v then [] else ["Dates are required"]) ++
  (if isStringOpt v then [] else ["Dates must be a string"]) ++
  (if maxLenOk 200 v then [] else ["Dates description cannot exceed 200 characters"])

/-- failed-constraint messages for `recaptchaToken` (no transform). -/
def tokenErrors (v : Option String) : List String :=
  (if isNotEmptyOpt v then [] else ["Security verification is required"]) ++
  (if isStringOpt v then [] else ["Invalid security token"])

/-- The validated, transformed `MailerDto` instance.  `message` is `Option`
because the `ValidationPipe` runs with `whitelist: true` and the rich DTO
class declares no `message` property (and no decorators for it), so the
pipe strips it: the instance the controller receives always has
`message = none`, which the TS code reads as `undefined`. -/
structure MailerDto where
  firstName : String
  lastName : String
  email : String
  phone : String
  petType : String
  dates : String
  message : Option String
  recaptchaToken : String
deriving DecidableEq, Repr

/-- Pipe `ValidationPipe({ transform: true, whitelist: true })` over the rich
`MailerDto`: transform each decorated field, collect every violated
constraint's message in declaration order, and on success build the
whitelisted instance (the undecorated `message` is stripped). -/
def validateMailerDto (isEmail : String → Bool) (raw : RawBody) :
    Except (List String) MailerDto :=
  let fn := trimT raw.firstName
  let ln := trimT raw.lastName
  let em := emailT raw.email
  let ph := trimT raw.phone
  let pt := trimT raw.petType
  let dt := trimT raw.dates
  let tk := raw.recaptchaToken
  let errs := firstNameErrors fn ++ lastNameErrors ln ++ emailErrors isEmail em ++
    phoneErrors ph ++ petTypeErrors pt ++ datesErrors dt ++ tokenErrors tk
  if errs = [] then
    Except.ok
      { firstName := fn.getD "", lastName := ln.getD "", email := em.getD ""
        phone := ph.getD "", petType := pt.getD "", dates := dt.getD ""
        message := none, recaptchaToken := tk.getD "" }
  else
    Except.error errs

/-! ## The production `MailerController` (mailer.controller.ts) -/

/-- An email payload handed to `mailerService.sendMail(to, from, subject, text)`. -/
structure EmailMessage where
  «to» : String
  «from» : String
  subject : String
  text : String
deriving DecidableEq, Repr

/-- The pair of messages built by `prepareEmailContent`. -/
structure EmailContent where
  user : EmailMessage
  admin : EmailMessage
deriving DecidableEq, Repr

/-- JS template-literal rendering of a possibly-missing property
(`undefined` interpolates as the string "undefined"). -/
def tsInterp : Option String → String
  | none => "undefined"
  | some s => s

/-- Method `sanitizeInput`: spread plus trims, email lower-cased; `message` is
copied through unchanged. -/
def sanitizeInput (d : MailerDto) : MailerDto :=
  { d with firstName := jsTrim d.firstName, lastName := jsTrim d.lastName
           email := jsToLower (jsTrim d.email) }

/-- Template literal joining `firstName` and `lastName` with one space. -/
def userName (d : MailerDto) : String :=
  d.firstName ++ " " ++ d.lastName

/-- Fixed parts of the submitter-confirmation template. -/
def userTextA : String := "Hi "

/-- The tail of the submitter-confirmation template after the name. -/
def userTextB : String :=
  ",\n\nThank you for reaching out to us regarding pet sitting services. We have received your message and will get back to you within 24 hours.\n\nBest regards,\nGrant Pieterse - Pet Sitter\n\n---\nThis is an automated confirmation email. Please do not reply to this message."

/-- Operator-notification template up to the name. -/
def adminTextA : String :=
  "New contact form submission received:\n\nContact Information:\n- Name: "

/-- Operator-notification template between name and email. -/
def adminTextB : String := "\n- Email: "

/-- Operator-notification template between email and message. -/
def adminTextC : String := "\n- Message: "

/-- Operator-notification template tail. -/
def adminTextD : String :=
  "\n\nPlease respond to the customer within 24 hours."

/-- Method `prepareEmailContent`: throws when `ADMIN_EMAIL` is unset, otherwise
builds the submitter-confirmation and operator-notification messages. -/
def prepareEmailContent (adminEmail : Option String) (d : MailerDto) :
    Except String EmailContent :=
  match adminEmail with
  | none => Except.error "ADMIN_EMAIL environment variable is not configured"
  | some ae =>
    Except.ok
      { user :=
          { «to» := d.email, «from» := ae
            subject := "Confirmation: Your message has been received"
            text := userTextA ++ userName d ++ userTextB }
        admin :=
          { «to» := ae, «from» := ae
            subject := "New Contact Form Submission - " ++ userName d
            text := adminTextA ++ userName d ++ adminTextB ++ d.email ++
              adminTextC ++ tsInterp d.message ++ adminTextD } }

/-- The caller-facing outcome of `sendMail`: the 200 JSON body, or the
thrown HTTP exception (400 / 401 / 500). -/
inductive HandlerResponse where
  | ok (success : Bool) (message : String)
  | badRequest (messages : List String)
  | unauthorized (message : String)
  | serverError (message : String)
deriving DecidableEq, Repr

/-- What one request did: the response, every mail-client send attempted
(in `Promise.allSettled` order: operator first, submitter second), and the
dispatch-stage logger records. -/
structure HandlerOutcome where
  response : HandlerResponse
  sends : List EmailMessage
  logs : List String
deriving DecidableEq, Repr

/-- The success body returned by `sendMail`. -/
def successMessage : String :=
  "Your message has been sent successfully. We will get back to you soon!"

/-- The generic 500 message of the controller's catch block. -/
def serverErrorMessage : String :=
  "We are currently experiencing technical difficulties. Please try again later or contact us directly."

/-- The environment and external-collaborator outcomes one request sees:
the `IsEmail` library predicate, the two environment variables, the
scoring-service HTTP outcome, and the two mail-client send outcomes. -/
structure MailerCtx where
  isEmail : String → Bool
  adminEmail : Option String
  siteKey : Option String
  recaptchaNet : Except String RecaptchaResponse
  adminSendOk : Bool
  userSendOk : Bool

/-- Method `sendEmails`: fire both sends (`Promise.allSettled` attempts both
regardless of either outcome), then escalate an operator failure to a
thrown error and merely log a submitter failure. -/
def sendEmails (content : EmailContent) (adminSendOk userSendOk : Bool) :
    Except String Unit × List EmailMessage × List String :=
  let attempts := [content.admin, content.user]
  if adminSendOk = false then
    (Except.error "Failed to process contact form submission", attempts,
      ["Failed to send admin notification email"])
  else if userSendOk = false then
    (Except.ok (), attempts, ["Failed to send user confirmation email"])
  else
    (Except.ok (), attempts, [])

/-- Method `MailerController.sendMail` (production variant): `ValidationPipe`
validation, the explicit token-presence check, the verification gate with
action `contact_form` and threshold `0.5`, compose, dispatch, and the
catch block mapping `BadRequestException`/`UnauthorizedException` through
and everything else to the generic 500. -/
def sendMail (ctx : MailerCtx) (raw : RawBody) : HandlerOutcome :=
  match validateMailerDto ctx.isEmail raw with
  | Except.error msgs =>
    { response := HandlerResponse.badRequest msgs, sends := [], logs := [] }
  | Except.ok dto =>
    if dto.recaptchaToken = "" then
      { response := HandlerResponse.badRequest ["Security verification is required"]
        sends := [], logs := [] }
    else
      match (verify ctx.siteKey dto.recaptchaToken (some "contact_form")
          (mkRat 1 2) ctx.recaptchaNet).result with
      | Except.error _ =>
        -- a rejected verify promise would fall into the generic catch
        { response := HandlerResponse.serverError serverErrorMessage
          sends := [], logs := [] }
      | Except.ok isValidToken =>
        if isValidToken = false then
          { response := HandlerResponse.unauthorized
              "Security verification failed. Please try again."
            sends := [], logs := [] }
        else
          match prepareEmailContent ctx.adminEmail (sanitizeInput dto) with
          | Except.error _ =>
            { response := HandlerResponse.serverError serverErrorMessage
              sends := [], logs := [] }
          | Except.ok content =>
            match sendEmails content ctx.adminSendOk ctx.userSendOk with
            | (Except.error _, attempts, logs) =>
              { response := HandlerResponse.serverError serverErrorMessage
                sends := attempts, logs := logs }
            | (Except.ok _, attempts, logs) =>
              { response := HandlerResponse.ok true successMessage
                sends := attempts, logs := logs }

/-! ## Concrete fixtures used by witnesses and counterexamples -/

/-- The spec's example request body (email deliberately un-normalized). -/
def exampleRaw : RawBody :=
  { firstName := some "Jane", lastName := some "Doe", email := some "JANE@x.com "
    phone := some "555-1234", petType := some "dog", dates := some "Jul 1-5"
    message := some "Need a sitter", recaptchaToken := some "tok123" }

/-- Token properties of a valid token issued for action `contact_form`. -/
def okTokenProps : TokenProperties :=
  { valid := true, invalidReason := none, hostname := "x.com"
    action := "contact_form", createTime := "t0" }

/-- A scoring-service response that passes every check for action
`contact_form` with score 0.9. -/
def okResponse : RecaptchaResponse :=
  { tokenProperties := some okTokenProps
    riskAnalysis := some { score := mkRat 9 10, reasons := [] }
    name := "projects/p/assessments/a" }

/-- A response whose token the service marks invalid. -/
def invalidResponse : RecaptchaResponse :=
  { tokenProperties := some
      { valid := false, invalidReason := some "EXPIRED", hostname := "x.com"
        action := "contact_form", createTime := "t0" }
    riskAnalysis := none
    name := "projects/p/assessments/a" }

/-- A fully healthy environment for the example request: a concrete stand-in
for the external `IsEmail` predicate, both env vars set, the scoring call
answering `okResponse`, and both sends succeeding. -/
def okCtx : MailerCtx :=
  { isEmail := fun s => s = "jane@x.com", adminEmail := some "admin@site.com"
    siteKey := some "site-key", recaptchaNet := Except.ok okResponse
    adminSendOk := true, userSendOk := true }

/-! ## Lemmas about the verification gate -/

/-- An empty token makes `verify` return `false` with no network call: the
thrown token-required exception is caught by `verify`'s own catch block. -/
theorem verify_empty_token (siteKey : Option String) (ea : Option String)
    (ms : ℚ) (net : Except String RecaptchaResponse) :
    verify siteKey "" ea ms net =
      { result := Except.ok false, logs := [VerifyLog.errorCaught], request := none } := by
  simp [verify, verifyTry, verifyRequest]

/-- The boolean `verify` resolves to, extracted as a pure function of its
inputs (same branch structure as `verifyTry`). -/
def verifyDecision (token : String) (ea : Option String) (ms : ℚ)
    (net : Except String RecaptchaResponse) : Bool :=
  if token = "" then false
  else
    match net with
    | Except.error _ => false
    | Except.ok data =>
      match data.tokenProperties with
      | none => false
      | some tp =>
        if tp.valid = false then false
        else
          match ea with
          | some a =>
            if a != "" && tp.action != a then false
            else if scoreOf data < ms then false else true
          | none => if scoreOf data < ms then false else true

/-- Function `verify` always resolves (never rejects), to `verifyDecision`. -/
theorem verify_result_eq (siteKey : Option String) (token : String)
    (ea : Option String) (ms : ℚ) (net : Except String RecaptchaResponse) :
    (verify siteKey token ea ms net).result =
      Except.ok (verifyDecision token ea ms net) := by
  by_cases htok : token = ""
  · subst htok; simp [verify, verifyTry, verifyDecision]
  · cases net with
    | error e => simp [verify, verifyTry, verifyDecision, htok]
    | ok data =>
      cases hprops : data.tokenProperties with
      | none => simp [verify, verifyTry, verifyDecision, htok, hprops]
      | some tp =>
        cases ea with
        | none =>
          by_cases hv : tp.valid = false <;> by_cases hs : scoreOf data < ms <;>
            simp [verify, verifyTry, verifyDecision, checkScore, htok, hprops, hv, hs]
        | some a =>
          by_cases hmm : (a != "" && tp.action != a) = true <;>
            by_cases hv : tp.valid = false <;> by_cases hs : scoreOf data < ms <;>
              simp [verify, verifyTry, verifyDecision, checkScore, htok, hprops,
                hv, hs, hmm]

/-- Function `verifyDecision` is `true` exactly when every check passes: non-empty
token, successful network call, token marked valid, no action mismatch,
and score at least the threshold. -/
theorem verifyDecision_true_iff (token : String) (ea : Option String) (ms : ℚ)
    (net : Except String RecaptchaResponse) :
    verifyDecision token ea ms net = true ↔
      token ≠ "" ∧ ∃ data tp, net = Except.ok data ∧
        data.tokenProperties = some tp ∧ tp.valid = true ∧
        actionMismatch ea tp.action = false ∧ ms ≤ scoreOf data := by
  constructor
  · intro h
    by_cases htok : token = ""
    · rw [htok] at h; simp [verifyDecision] at h
    · refine ⟨htok, ?_⟩
      cases net with
      | error e => simp [verifyDecision, htok] at h
      | ok data =>
        cases hprops : data.tokenProperties with
        | none => simp [verifyDecision, htok, hprops] at h
        | some tp =>
          refine ⟨data, tp, rfl, hprops, ?_⟩
          cases hvb : tp.valid with
          | false => simp [verifyDecision, htok, hprops, hvb] at h
          | true =>
            refine ⟨rfl, ?_⟩
            cases ea with
            | none =>
              simp [verifyDecision, htok, hprops, hvb] at h
              exact ⟨rfl, h⟩
            | some a =>
              by_cases hmm : (a != "" && tp.action != a) = true
              · simp [verifyDecision, htok, hprops, hvb, hmm] at h
              · have hmm' : (a != "" && tp.action != a) = false := by
                  cases hb : (a != "" && tp.action != a)
                  · rfl
                  · exact absurd hb hmm
                simp [verifyDecision, htok, hprops, hvb, hmm'] at h
                refine ⟨?_, h⟩
                simp only [actionMismatch]
                by_cases ha : a = ""
                · simp [ha]
                · simp only [if_neg ha]
                  rcases Bool.and_eq_false_iff.mp hmm' with hfa | hfb
                  · exact absurd (bne_eq_false_iff_eq.mp hfa) ha
                  · exact hfb
  · rintro ⟨htok, data, tp, hnet, hprops, hv, hmm, hs⟩
    subst hnet
    have hvf : (tp.valid = false) = False := by simp [hv]
    cases ea with
    | none =>
      simp [verifyDecision, htok, hprops, hv, not_lt.mpr hs]
    | some a =>
      have hmm' : (a != "" && tp.action != a) = false := by
        simp only [actionMismatch] at hmm
        by_cases ha : a = ""
        · simp [ha]
        · rw [if_neg ha] at hmm
          simp [hmm]
      simp [verifyDecision, htok, hprops, hv, hmm', not_lt.mpr hs]

/-- The network request `verify` makes is determined before the response is
seen. -/
theorem verify_request_eq (siteKey : Option String) (token : String)
    (ea : Option String) (ms : ℚ) (net : Except String RecaptchaResponse) :
    (verify siteKey token ea ms net).request = verifyRequest siteKey token ea := by
  simp only [verify]
  split <;> rfl

/-- Every token-derived field in `verify`'s diagnostics is the truncated
`partialTokenLog`. -/
theorem logs_token_field (siteKey : Option String) (token : String)
    (ea : Option String) (ms : ℚ) (net : Except String RecaptchaResponse)
    (l : VerifyLog) (s : String)
    (hl : l ∈ (verify siteKey token ea ms net).logs)
    (hs : tokenFieldOf l = some s) :
    s = partialTokenLog token := by
  by_cases htok : token = ""
  · rw [htok, verify_empty_token] at hl
    simp only [List.mem_singleton] at hl
    rw [hl] at hs
    simp [tokenFieldOf] at hs
  · cases net with
    | error e =>
      simp [verify, verifyTry, htok] at hl
      rw [hl] at hs
      simp [tokenFieldOf] at hs
    | ok data =>
      cases hprops : data.tokenProperties with
      | none =>
        simp [verify, verifyTry, htok, hprops] at hl
        rw [hl] at hs
        simp only [tokenFieldOf, Option.some.injEq] at hs
        exact hs.symm
      | some tp =>
        cases hvb : tp.valid with
        | false =>
          simp [verify, verifyTry, htok, hprops, hvb] at hl
          rw [hl] at hs
          simp only [tokenFieldOf, Option.some.injEq] at hs
          exact hs.symm
        | true =>
          cases ea with
          | none =>
            by_cases hsc : scoreOf data < ms <;>
              · simp [verify, verifyTry, checkScore, htok, hprops, hvb, hsc] at hl
                rw [hl] at hs
                simp [tokenFieldOf] at hs
          | some a =>
            by_cases hmm : (a != "" && tp.action != a) = true
            · simp [verify, verifyTry, htok, hprops, hvb, hmm] at hl
              rw [hl] at hs
              simp [tokenFieldOf] at hs
            · by_cases hsc : scoreOf data < ms <;>
                · simp [verify, verifyTry, checkScore, htok, hprops, hvb,
                    hmm, hsc] at hl
                  rw [hl] at hs
                  simp [tokenFieldOf] at hs

/-! ## Claims about the verification gate -/

/-- C4 counterexample: for a missing (empty) token, `verify` does NOT report
a distinct token-required condition to the caller: the `HttpException` it
throws is caught by its own catch block, and the promise resolves to plain
`false`, indistinguishable from any other rejection. -/
theorem C4_counterexample :
    (verify (some "site-key") "" (some "contact_form") (mkRat 1 2)
        (Except.ok okResponse)).result = Except.ok false ∧
    (verify (some "site-key") "" (some "contact_form") (mkRat 1 2)
        (Except.ok okResponse)).result ≠ Except.error VerifyError.tokenRequired := by
  rw [verify_empty_token]
  exact ⟨rfl, by simp⟩

/-- C4 (amended): `verify` never raises to the caller at all — it resolves
to a boolean on every input; a missing (empty) token yields `false` with no
network call attempted (the token-required exception is swallowed by the
catch block); and it resolves to `true` only when the token is non-empty,
the network call succeeded, the token is marked valid, the action check
passes, and the score reaches `minScore` — so every network error,
malformed response, action mismatch, or low score yields `false`. -/
theorem C4_verify_fails_closed (siteKey : Option String) (token : String)
    (ea : Option String) (ms : ℚ) (net : Except String RecaptchaResponse) :
    (∃ b, (verify siteKey token ea ms net).result = Except.ok b) ∧
    (token = "" → verify siteKey token ea ms net =
      { result := Except.ok false, logs := [VerifyLog.errorCaught]
        request := none }) ∧
    ((verify siteKey token ea ms net).result = Except.ok true →
      token ≠ "" ∧ ∃ data tp, net = Except.ok data ∧
        data.tokenProperties = some tp ∧ tp.valid = true ∧
        actionMismatch ea tp.action = false ∧ ms ≤ scoreOf data) := by
  refine ⟨⟨verifyDecision token ea ms net, verify_result_eq _ _ _ _ _⟩, ?_, ?_⟩
  · intro h
    rw [h]
    exact verify_empty_token siteKey ea ms net
  · intro h
    rw [verify_result_eq] at h
    injection h with h'
    exact (verifyDecision_true_iff _ _ _ _).mp h'

/-- C4 witness: a network failure resolves to `false`; an empty token also
resolves to `false` with no request made. -/
theorem C4_verify_fails_closed_witness :
    verify (some "site-key") "" (some "contact_form") (mkRat 1 2)
        (Except.error "ECONNRESET") =
      { result := Except.ok false, logs := [VerifyLog.errorCaught]
        request := none } :=
  (C4_verify_fails_closed (some "site-key") "" (some "contact_form") (mkRat 1 2)
    (Except.error "ECONNRESET")).2.1 rfl

/-- C7 counterexample: for the 3-character token "abc" rejected as invalid,
the emitted diagnostic's token field is "abc...", which contains the full
token value. -/
theorem C7_counterexample :
    (verify (some "site-key") "abc" (some "contact_form") (mkRat 1 2)
        (Except.ok invalidResponse)).logs =
      [VerifyLog.warnInvalid (some "EXPIRED") "abc..."] ∧
    "abc".toList <:+: "abc...".toList := by
  constructor
  · rfl
  · exact ⟨[], ['.', '.', '.'], rfl⟩

/-- C7 (amended): the only token-derived content in `verify`'s diagnostics
is the truncated field `token.take 20 ++ "..."`; in particular a token
longer than 23 characters never appears in full in that field. -/
theorem C7_token_truncated_in_logs (siteKey : Option String) (token : String)
    (ea : Option String) (ms : ℚ) (net : Except String RecaptchaResponse)
    (l : VerifyLog) (s : String)
    (hl : l ∈ (verify siteKey token ea ms net).logs)
    (hs : tokenFieldOf l = some s) :
    s = partialTokenLog token ∧
      (23 < token.length → ¬ token.toList <:+: s.toList) := by
  have heq : s = partialTokenLog token :=
    logs_token_field siteKey token ea ms net l s hl hs
  refine ⟨heq, ?_⟩
  intro h23 hinf
  have hlen : token.toList.length ≤ s.toList.length := hinf.length_le
  have hslen : s.toList.length = (token.toList.take 20).length + 3 := by
    rw [heq]
    show (token.toList.take 20 ++ "...".toList).length =
      (token.toList.take 20).length + 3
    simp
  have htake : (token.toList.take 20).length ≤ 20 := by
    rw [List.length_take]
    exact min_le_left _ _
  have htl : token.toList.length = token.length := rfl
  omega

/-- C7 witness: with a 25-character token rejected as invalid, the diagnostic
field is the truncated prefix and the full token does not occur in it. -/
theorem C7_token_truncated_in_logs_witness :
    partialTokenLog "t123456789012345678901234" =
        partialTokenLog "t123456789012345678901234" ∧
      (23 < ("t123456789012345678901234" : String).length →
        ¬ ("t123456789012345678901234" : String).toList <:+:
          (partialTokenLog "t123456789012345678901234").toList) :=
  C7_token_truncated_in_logs (some "site-key") "t123456789012345678901234"
    (some "contact_form") (mkRat 1 2) (Except.ok invalidResponse)
    (VerifyLog.warnInvalid (some "EXPIRED")
      (partialTokenLog "t123456789012345678901234"))
    (partialTokenLog "t123456789012345678901234")
    (by simp [verify, verifyTry, invalidResponse]) rfl

/-- C9: when the response marks the token valid but carries no
`riskAnalysis`, the score is substituted with 0, so `verify` resolves to
`false` whenever `minScore > 0`. -/
theorem C9_missing_score_fails_closed (siteKey : Option String) (token : String)
    (ea : Option String) (ms : ℚ) (data : RecaptchaResponse) (tp : TokenProperties)
    (hprops : data.tokenProperties = some tp) (hvalid : tp.valid = true)
    (hna : data.riskAnalysis = none) (hms : 0 < ms) :
    scoreOf data = 0 ∧
    (verify siteKey token ea ms (Except.ok data)).result = Except.ok false := by
  have hscore : scoreOf data = 0 := by simp [scoreOf, hna]
  refine ⟨hscore, ?_⟩
  rw [verify_result_eq]
  have hd : verifyDecision token ea ms (Except.ok data) = false := by
    cases hb : verifyDecision token ea ms (Except.ok data) with
    | false => rfl
    | true =>
      rcases (verifyDecision_true_iff _ _ _ _).mp hb with
        ⟨_, d, t, hdd, _, _, _, hle⟩
      injection hdd with hdd'
      rw [← hdd', hscore] at hle
      exact absurd hle (not_le.mpr hms)
  rw [hd]

/-- A response that marks the token valid but carries no `riskAnalysis`. -/
def noScoreResponse : RecaptchaResponse :=
  { tokenProperties := some
      { valid := true, invalidReason := none, hostname := "x.com"
        action := "contact_form", createTime := "t0" }
    riskAnalysis := none
    name := "projects/p/assessments/a" }

/-- C9 witness: a valid token whose response lacks `riskAnalysis` is
rejected at threshold 0.5. -/
theorem C9_missing_score_fails_closed_witness :
    scoreOf noScoreResponse = 0 ∧
    (verify (some "site-key") "tok123" (some "contact_form") (mkRat 1 2)
      (Except.ok noScoreResponse)).result = Except.ok false :=
  C9_missing_score_fails_closed (some "site-key") "tok123" (some "contact_form")
    (mkRat 1 2) _ _ rfl rfl rfl (by norm_num)

/-- C10: when `expectedAction` is omitted or empty, the request sent to the
scoring service carries the default expected action "submit", and the
action-mismatch check is skipped: a valid token with sufficient score
yields `true` whatever action the token was actually issued for. -/
theorem C10_default_action_skips_check (siteKey : Option String)
    (ea : Option String) (hea : ea = none ∨ ea = some "") (token : String)
    (htok : token ≠ "") (ms : ℚ) (net : Except String RecaptchaResponse) :
    (verify siteKey token ea ms net).request =
      some { token := token, siteKey := siteKey, expectedAction := "submit" } ∧
    (∀ data tp, net = Except.ok data → data.tokenProperties = some tp →
      tp.valid = true → ms ≤ scoreOf data →
      (verify siteKey token ea ms net).result = Except.ok true) := by
  have hmm : ∀ actual : String, actionMismatch ea actual = false := by
    intro actual
    rcases hea with h | h <;> subst h <;> simp [actionMismatch]
  constructor
  · rw [verify_request_eq]
    simp only [verifyRequest, if_neg htok]
    rcases hea with h | h <;> subst h <;> rfl
  · intro data tp hnet hprops hvalid hscore
    rw [verify_result_eq]
    have : verifyDecision token ea ms net = true :=
      (verifyDecision_true_iff _ _ _ _).mpr
        ⟨htok, data, tp, hnet, hprops, hvalid, hmm tp.action, hscore⟩
    rw [this]

/-- Token properties of a valid token issued for the action "login". -/
def loginTokenProps : TokenProperties :=
  { valid := true, invalidReason := none, hostname := "x.com"
    action := "login", createTime := "t0" }

/-- A passing response whose token was issued for the action "login". -/
def loginActionResponse : RecaptchaResponse :=
  { okResponse with tokenProperties := some loginTokenProps }

/-- C10 witness: with an omitted expected action, a token issued for the
action "login" still verifies, and the posted request carries "submit". -/
theorem C10_default_action_skips_check_witness :
    (verify (some "site-key") "tok123" none (mkRat 1 2)
        (Except.ok loginActionResponse)).request =
      some { token := "tok123", siteKey := some "site-key"
             expectedAction := "submit" } ∧
    (verify (some "site-key") "tok123" none (mkRat 1 2)
        (Except.ok loginActionResponse)).result = Except.ok true := by
  have h := C10_default_action_skips_check (some "site-key") none (Or.inl rfl)
    "tok123" (by simp) (mkRat 1 2) (Except.ok loginActionResponse)
  exact ⟨h.1, h.2 loginActionResponse loginTokenProps rfl rfl rfl
    (by norm_num [loginActionResponse, okResponse, scoreOf])⟩

/-! ## Lemmas about the submission handler -/

/-- If the token field produced no validation error, the validated token is
non-empty. -/
theorem tokenErrors_nil (tk : Option String) (h : tokenErrors tk = []) :
    tk.getD "" ≠ "" := by
  cases tk with
  | none => simp [tokenErrors, isNotEmptyOpt, isStringOpt] at h
  | some s =>
    simp only [tokenErrors, isNotEmptyOpt, isStringOpt] at h
    by_cases hs : s = ""
    · rw [hs] at h; simp at h
    · simpa using hs

/-- A request that passes validation carries a non-empty token. -/
theorem validate_token_nonempty (isEmail : String → Bool) (raw : RawBody)
    (dto : MailerDto) (h : validateMailerDto isEmail raw = Except.ok dto) :
    dto.recaptchaToken ≠ "" := by
  simp only [validateMailerDto] at h
  split at h
  case isTrue herrs =>
    injection h with h'
    rw [← h']
    simp only [List.append_eq_nil] at herrs
    exact tokenErrors_nil raw.recaptchaToken herrs.2
  case isFalse => exact absurd h (by simp)

/-! ## Claims about the submission handler -/

/-- C1: no email send is attempted unless validation passed and the
verification gate resolved to `true`: whenever any send was attempted, the
request validated successfully and `verify` returned `true` for its token
at action "contact_form" and threshold 0.5. -/
theorem C1_no_send_without_validation_and_gate (ctx : MailerCtx) (raw : RawBody)
    (h : (sendMail ctx raw).sends ≠ []) :
    ∃ dto, validateMailerDto ctx.isEmail raw = Except.ok dto ∧
      (verify ctx.siteKey dto.recaptchaToken (some "contact_form") (mkRat 1 2)
        ctx.recaptchaNet).result = Except.ok true := by
  cases hval : validateMailerDto ctx.isEmail raw with
  | error msgs => simp [sendMail, hval] at h
  | ok dto =>
    by_cases htok : dto.recaptchaToken = ""
    · simp [sendMail, hval, htok] at h
    · cases hd : verifyDecision dto.recaptchaToken (some "contact_form")
          (mkRat 1 2) ctx.recaptchaNet with
      | false => simp [sendMail, hval, htok, verify_result_eq, hd] at h
      | true =>
        exact ⟨dto, rfl, by rw [verify_result_eq, hd]⟩

/-- The validated, transformed instance produced for `exampleRaw`. -/
def janeDto : MailerDto :=
  { firstName := "Jane", lastName := "Doe", email := "jane@x.com"
    phone := "555-1234", petType := "dog", dates := "Jul 1-5"
    message := none, recaptchaToken := "tok123" }

/-- The pair of messages composed for the example request. -/
def janeContent : EmailContent :=
  { user :=
      { «to» := "jane@x.com", «from» := "admin@site.com"
        subject := "Confirmation: Your message has been received"
        text := userTextA ++ "Jane Doe" ++ userTextB }
    admin :=
      { «to» := "admin@site.com", «from» := "admin@site.com"
        subject := "New Contact Form Submission - Jane Doe"
        text := adminTextA ++ "Jane Doe" ++ adminTextB ++ "jane@x.com" ++
          adminTextC ++ "undefined" ++ adminTextD } }

/-- C1 witness: on the example request in a healthy environment, sends are
attempted, so validation passed and the gate returned `true`. -/
theorem C1_no_send_without_validation_and_gate_witness :
    (sendMail okCtx exampleRaw).sends ≠ [] ∧
    ∃ dto, validateMailerDto okCtx.isEmail exampleRaw = Except.ok dto ∧
      (verify okCtx.siteKey dto.recaptchaToken (some "contact_form") (mkRat 1 2)
        okCtx.recaptchaNet).result = Except.ok true :=
  ⟨by decide, C1_no_send_without_validation_and_gate okCtx exampleRaw (by decide)⟩

/-- C2: if the operator send fails while the submitter send succeeds, both
sends are still attempted (operator failure does not block the submitter
attempt), and the handler returns the generic 500 server error. -/
theorem C2_operator_failure_fatal (ctx : MailerCtx) (raw : RawBody)
    (dto : MailerDto) (content : EmailContent)
    (hval : validateMailerDto ctx.isEmail raw = Except.ok dto)
    (hver : verifyDecision dto.recaptchaToken (some "contact_form") (mkRat 1 2)
      ctx.recaptchaNet = true)
    (hprep : prepareEmailContent ctx.adminEmail (sanitizeInput dto) =
      Except.ok content)
    (hadmin : ctx.adminSendOk = false) (huser : ctx.userSendOk = true) :
    (sendMail ctx raw).response = HandlerResponse.serverError serverErrorMessage ∧
    (sendMail ctx raw).sends = [content.admin, content.user] := by
  have htok := validate_token_nonempty ctx.isEmail raw dto hval
  constructor <;>
    simp [sendMail, hval, htok, verify_result_eq, hver, hprep, sendEmails,
      hadmin, huser]

set_option maxRecDepth 8192 in
/-- C2 witness: the example request with a failing operator send and a
succeeding submitter send yields the 500 outcome with both sends attempted. -/
theorem C2_operator_failure_fatal_witness :
    ((sendMail { okCtx with adminSendOk := false } exampleRaw).response =
        HandlerResponse.serverError serverErrorMessage ∧
      (sendMail { okCtx with adminSendOk := false } exampleRaw).sends.length = 2) := by
  have h := C2_operator_failure_fatal { okCtx with adminSendOk := false }
    exampleRaw janeDto janeContent
    (by decide) (by decide) (by decide) rfl rfl
  exact ⟨h.1, by rw [h.2]; rfl⟩

/-- C3: if the operator send succeeds and the submitter send fails, the
handler still returns the success outcome unchanged; the submitter failure
only produces the warning log record. -/
theorem C3_submitter_failure_tolerated (ctx : MailerCtx) (raw : RawBody)
    (dto : MailerDto) (content : EmailContent)
    (hval : validateMailerDto ctx.isEmail raw = Except.ok dto)
    (hver : verifyDecision dto.recaptchaToken (some "contact_form") (mkRat 1 2)
      ctx.recaptchaNet = true)
    (hprep : prepareEmailContent ctx.adminEmail (sanitizeInput dto) =
      Except.ok content)
    (hadmin : ctx.adminSendOk = true) (huser : ctx.userSendOk = false) :
    (sendMail ctx raw).response = HandlerResponse.ok true successMessage ∧
    (sendMail ctx raw).sends = [content.admin, content.user] ∧
    (sendMail ctx raw).logs = ["Failed to send user confirmation email"] := by
  have htok := validate_token_nonempty ctx.isEmail raw dto hval
  refine ⟨?_, ?_, ?_⟩ <;>
    simp [sendMail, hval, htok, verify_result_eq, hver, hprep, sendEmails,
      hadmin, huser]

set_option maxRecDepth 8192 in
/-- C3 witness: the example request with a failing submitter send still
returns success. -/
theorem C3_submitter_failure_tolerated_witness :
    ((sendMail { okCtx with userSendOk := false } exampleRaw).response =
        HandlerResponse.ok true successMessage ∧
      (sendMail { okCtx with userSendOk := false } exampleRaw).logs =
        ["Failed to send user confirmation email"]) := by
  have h := C3_submitter_failure_tolerated { okCtx with userSendOk := false }
    exampleRaw janeDto janeContent
    (by decide) (by decide) (by decide) rfl rfl
  exact ⟨h.1, h.2.2⟩

/-- C8: a validated request whose token verifies (valid, action
"contact_form", score at least 0.5) under healthy configuration and mail
transport attempts exactly two sends and returns the success response, and
the submitter message is addressed to the trimmed, lower-cased email. -/
theorem C8_valid_verified_request_succeeds (ctx : MailerCtx) (raw : RawBody)
    (dto : MailerDto) (data : RecaptchaResponse) (tp : TokenProperties)
    (ae : String)
    (hval : validateMailerDto ctx.isEmail raw = Except.ok dto)
    (hnet : ctx.recaptchaNet = Except.ok data)
    (hprops : data.tokenProperties = some tp) (hvalid : tp.valid = true)
    (haction : tp.action = "contact_form") (hscore : mkRat 1 2 ≤ scoreOf data)
    (hae : ctx.adminEmail = some ae)
    (hadmin : ctx.adminSendOk = true) (huser : ctx.userSendOk = true) :
    (sendMail ctx raw).sends.length = 2 ∧
    (sendMail ctx raw).response = HandlerResponse.ok true successMessage ∧
    (sendMail ctx raw).sends.map (fun m => m.«to») =
      [ae, jsToLower (jsTrim dto.email)] := by
  have htok := validate_token_nonempty ctx.isEmail raw dto hval
  have hver : verifyDecision dto.recaptchaToken (some "contact_form")
      (mkRat 1 2) ctx.recaptchaNet = true :=
    (verifyDecision_true_iff _ _ _ _).mpr
      ⟨htok, data, tp, hnet, hprops, hvalid,
        by simp [actionMismatch, haction], hscore⟩
  refine ⟨?_, ?_, ?_⟩ <;>
    simp [sendMail, hval, htok, verify_result_eq, hver, hae,
      prepareEmailContent, sanitizeInput, sendEmails, hadmin, huser]

set_option maxRecDepth 8192 in
/-- C8 witness: the spec's example request — email submitted as
"JANE@x.com " — is stored and used as "jane@x.com"; two sends are
attempted; the response is the success body. -/
theorem C8_valid_verified_request_succeeds_witness :
    (sendMail okCtx exampleRaw).sends.length = 2 ∧
    (sendMail okCtx exampleRaw).response =
      HandlerResponse.ok true successMessage ∧
    (sendMail okCtx exampleRaw).sends.map (fun m => m.«to») =
      ["admin@site.com", "jane@x.com"] := by
  have h := C8_valid_verified_request_succeeds okCtx exampleRaw janeDto
    okResponse okTokenProps "admin@site.com"
    (by decide) rfl rfl rfl rfl (by decide) rfl rfl rfl
  exact ⟨h.1, h.2.1, by rw [h.2.2]; rfl⟩

set_option maxRecDepth 8192 in
/-- C5: the claim fails at the `message` field.  The rich `MailerDto`
declares no `message` property (and the `ValidationPipe` whitelist strips
it), so a request with no message at all passes validation: the handler
performs two sends and returns success instead of rejecting, and the
operator email renders "- Message: undefined". -/
theorem C5_missing_message_not_rejected :
    (sendMail okCtx { exampleRaw with message := none }).response =
      HandlerResponse.ok true successMessage ∧
    (sendMail okCtx { exampleRaw with message := none }).sends.length = 2 ∧
    (sendMail okCtx { exampleRaw with message := none }).sends.map
        EmailMessage.text =
      [adminTextA ++ "Jane Doe" ++ adminTextB ++ "jane@x.com" ++ adminTextC ++
        "undefined" ++ adminTextD,
       userTextA ++ "Jane Doe" ++ userTextB] := by
  refine ⟨?_, ?_, ?_⟩ <;> decide

set_option maxRecDepth 16384 in
/-- C6 counterexample: the operator-notification body composed for the
example request contains neither the submitted phone number, nor the pet
type, nor the dates. -/
theorem C6_counterexample :
    prepareEmailContent (some "admin@site.com") (sanitizeInput janeDto) =
      Except.ok janeContent ∧
    ¬ "555-1234".toList <:+: janeContent.admin.text.toList ∧
    ¬ "dog".toList <:+: janeContent.admin.text.toList ∧
    ¬ "Jul 1-5".toList <:+: janeContent.admin.text.toList := by
  refine ⟨by decide, ?_, ?_, ?_⟩ <;> decide

/-- A string is an infix of any concatenation surrounding it. -/
theorem str_infix_middle (a x b : String) :
    x.toList <:+: (a ++ x ++ b).toList := by
  refine ⟨a.toList, b.toList, ?_⟩
  simp [String.toList, String.data_append]

/-- C6 (amended): the operator message contains the submitter's name,
email, and (rendered) message field — not phone, petType, or dates — and
the submitter message is the fixed acknowledgment template personalized
with the submitter's first and last name. -/
theorem C6_composed_email_contents (ae : String) (d : MailerDto)
    (content : EmailContent)
    (h : prepareEmailContent (some ae) d = Except.ok content) :
    (content.user.text = userTextA ++ userName d ++ userTextB ∧
     content.admin.text = adminTextA ++ userName d ++ adminTextB ++ d.email ++
       adminTextC ++ tsInterp d.message ++ adminTextD) ∧
    (userName d).toList <:+: content.admin.text.toList ∧
    d.email.toList <:+: content.admin.text.toList ∧
    (tsInterp d.message).toList <:+: content.admin.text.toList ∧
    (userName d).toList <:+: content.user.text.toList := by
  simp only [prepareEmailContent] at h
  injection h with h'
  subst h'
  refine ⟨⟨rfl, rfl⟩, ?_, ?_, ?_, ?_⟩
  · refine ⟨adminTextA.toList,
      (adminTextB ++ d.email ++ adminTextC ++ tsInterp d.message ++
        adminTextD).toList, ?_⟩
    simp [String.toList, String.data_append, List.append_assoc]
  · refine ⟨(adminTextA ++ userName d ++ adminTextB).toList,
      (adminTextC ++ tsInterp d.message ++ adminTextD).toList, ?_⟩
    simp [String.toList, String.data_append, List.append_assoc]
  · refine ⟨(adminTextA ++ userName d ++ adminTextB ++ d.email ++
        adminTextC).toList, adminTextD.toList, ?_⟩
    simp [String.toList, String.data_append, List.append_assoc]
  · exact str_infix_middle userTextA (userName d) userTextB

set_option maxRecDepth 8192 in
/-- C6 witness: the concrete composed contents for the example request. -/
theorem C6_composed_email_contents_witness :
    (janeContent.user.text = userTextA ++ userName janeDto ++ userTextB ∧
     janeContent.admin.text = adminTextA ++ userName janeDto ++ adminTextB ++
       janeDto.email ++ adminTextC ++ tsInterp janeDto.message ++ adminTextD) ∧
    (userName janeDto).toList <:+: janeContent.admin.text.toList ∧
    janeDto.email.toList <:+: janeContent.admin.text.toList ∧
    (tsInterp janeDto.message).toList <:+: janeContent.admin.text.toList ∧
    (userName janeDto).toList <:+: janeContent.user.text.toList :=
  C6_composed_email_contents "admin@site.com" janeDto janeContent (by decide)

end Mailer
